import Mathlib

/-!
Shallow embedding of the speech-synthesis subsystem of the repository
(the `SpeechService` module: `prependWavHeader`, `getVoiceSettings`,
`textToSpeech`, `processVitsAudio`, `generateVitsAudio`,
`SpeechService.generate`).

Modelling conventions.  A Node byte stream is the list of the chunks it
emits before ending (`List (List Nat)`, each byte a `Nat < 256` by
construction).  Float32 samples are modelled by their exact rational
values: every finite float32 is a rational, and the double-precision
product `sample * 32767` computed by the source is exact (it needs at
most 24 + 15 = 39 significand bits, below the 53 of a double), as is
`Math.round`, so the whole conversion is captured exactly over `ℚ`.
Fallible calls return `Except String` carrying the thrown error message.
-/

namespace Speech

/-- Truthiness of a JavaScript string-or-undefined value as tested by `!!v`
and `if (v)`: `undefined` and the empty string are falsy, every other string
is truthy. -/
def jsTruthy : Option String → Bool
  | none => false
  | some s => !s.isEmpty

/-- JavaScript `a || b` on string-or-undefined values: `a` when truthy,
otherwise `b`. -/
def jsOr (a b : Option String) : Option String :=
  if jsTruthy a then a else b

/-- JavaScript `a || d` where the default `d` is a non-empty string literal,
so the result is always a definite string. -/
def jsOrD (a : Option String) (d : String) : String :=
  match a with
  | some s => if s.isEmpty then d else s
  | none => d

/-- Little-endian unsigned 16-bit encoding (low byte first). -/
def u16le (n : Nat) : List Nat := [n % 256, n / 256 % 256]

/-- Little-endian unsigned 32-bit encoding (low byte first). -/
def u32le (n : Nat) : List Nat :=
  [n % 256, n / 256 % 256, n / 65536 % 256, n / 16777216 % 256]

/-- Modelled from the spec: `getWavHeader` is imported from `audioUtils.ts`,
a file of this repository that is not among the provided sources.  Spec
section 4.1 fixes its exact layout: a 44-byte RIFF/WAVE header with, in
order, the literal `RIFF`, `36 + payloadByteLength` (u32), the literals
`WAVE` and `fmt `, the PCM fmt-chunk size 16 (u32), format tag 1 (u16),
channel count (u16), sample rate (u32), byte rate
`sampleRate * channelCount * bitsPerSample/8` (u32), block align
`channelCount * bitsPerSample/8` (u16), bits per sample (u16), the literal
`data`, and the payload byte length (u32); all multi-byte fields
little-endian. -/
def getWavHeader (audioLength sampleRate channelCount bitsPerSample : Nat) : List Nat :=
  [82, 73, 70, 70] ++ u32le (36 + audioLength) ++
  [87, 65, 86, 69] ++ [102, 109, 116, 32] ++
  u32le 16 ++ u16le 1 ++ u16le channelCount ++ u32le sampleRate ++
  u32le (sampleRate * channelCount * bitsPerSample / 8) ++
  u16le (channelCount * bitsPerSample / 8) ++ u16le bitsPerSample ++
  [100, 97, 116, 97] ++ u32le audioLength

/-- Event loop of `prependWavHeader` (source lines 22–33): on each `data`
event, if the header has not been pushed yet push it and set the flag, then
push the chunk; the `end` event ends the output with nothing more.  The
`Bool` argument is the mutable `pushedHeader` flag. -/
def composeLoop (wavHeader : List Nat) : Bool → List (List Nat) → List (List Nat)
  | _, [] => []
  | true, d :: rest => d :: composeLoop wavHeader true rest
  | false, d :: rest => wavHeader :: d :: composeLoop wavHeader true rest

/-- `prependWavHeader` (source lines 9–35): build the header from the four
numeric arguments and run the event loop over the source stream, starting
with `pushedHeader = false`. -/
def prependWavHeader (readable : List (List Nat))
    (audioLength sampleRate channelCount bitsPerSample : Nat) : List (List Nat) :=
  composeLoop (getWavHeader audioLength sampleRate channelCount bitsPerSample) false readable

/-- JavaScript `Math.round`: the closest integer, ties toward plus infinity;
on the exact rational model this is the floor of `q + 1/2`. -/
def jsRound (q : ℚ) : ℤ := ⌊q + 1 / 2⌋

/-- Storing an integer into an `Int16Array` slot wraps it modulo 2^16 into
the range [-32768, 32767] (two's complement), per ECMAScript ToInt16. -/
def toInt16 (n : ℤ) : ℤ := (n + 32768) % 65536 - 32768

/-- One iteration of the float-to-PCM loop (source line 136):
`pcmBuffer[i] = Math.round(floatArray[i] * 32767)`, the `Int16Array`
store wrapping the rounded value. -/
def vitsConvertSample (s : ℚ) : ℤ := toInt16 (jsRound (s * 32767))

/-- Little-endian byte pair of a signed 16-bit value, as laid out in the
`Int16Array` backing buffer read by `Buffer.from(pcmBuffer.buffer)`. -/
def int16ToLEBytes (n : ℤ) : List Nat :=
  [(n % 65536).toNat % 256, (n % 65536).toNat / 256]

/-- A Node readable built from a single buffer (`readable.push(buf)` then
`push(null)`, or `Readable.from(buf)`): one chunk holding the whole buffer.
Pushing a zero-length buffer is a no-op in Node, so an empty buffer yields a
stream with no data events. -/
def bufferToStream (b : List Nat) : List (List Nat) :=
  if b.isEmpty then [] else [b]

/-- Shape of the `audio` value probed by `processVitsAudio` (source lines
123, 126, 150): a Node `Buffer`, a `RawAudio` record carrying
`audioChannels` (a list of float32 channels, samples as exact rationals)
and `sampleRate`, or any other value. -/
inductive EchogardenAudio where
  | buffer : List Nat → EchogardenAudio
  | rawAudio : List (List ℚ) → Nat → EchogardenAudio
  | other : EchogardenAudio

/-- `processVitsAudio` (source lines 121–154).  A `Buffer` is wrapped as a
stream directly; a `RawAudio` takes channel 0, converts every sample through
the `Math.round`/`Int16Array` loop, prepends `getWavHeader` built over
`pcmBuffer.length * 2` bytes, sample rate, channel count 1 and bit depth 16,
and wraps the concatenation as a single-buffer stream; any other shape throws
`Unsupported audio format`.  A `RawAudio` with an empty channel list would
dereference `.buffer` of `undefined` and throw a `TypeError` (message text
immaterial; no claim reaches this case). -/
def processVitsAudio : EchogardenAudio → Except String (List (List Nat))
  | .buffer b => .ok (bufferToStream b)
  | .rawAudio [] _ => .error "TypeError"
  | .rawAudio (c0 :: _) sampleRate =>
      let pcm := c0.map vitsConvertSample
      let wavHeaderBuffer := getWavHeader (pcm.length * 2) sampleRate 1 16
      let wavBuffer := wavHeaderBuffer ++ (pcm.map int16ToLEBytes).flatten
      .ok (bufferToStream wavBuffer)
  | .other => .error "Unsupported audio format"

/-- Per-character ElevenLabs overrides,
`runtime.character.settings?.voice?.elevenlabs`. -/
structure ElevenLabsVoiceSettings where
  voiceId : Option String
  model : Option String
  stability : Option String

/-- Per-character voice settings, `runtime.character.settings?.voice`. -/
structure CharacterVoice where
  elevenlabs : Option ElevenLabsVoiceSettings
  model : Option String
  url : Option String

/-- The slice of `IAgentRuntime` the subsystem reads: the settings accessor
(`none` = the setting is undefined) and the per-character voice settings. -/
structure Runtime where
  getSetting : String → Option String
  voice : Option CharacterVoice

/-- Record returned by `getVoiceSettings` (source lines 50–69). -/
structure VoiceSettings where
  elevenlabsVoiceId : Option String
  elevenlabsModel : String
  elevenlabsStability : String
  vitsVoice : String
  useVits : Bool

/-- `getVoiceSettings` (source lines 37–70): `hasElevenLabs` is the
truthiness of the `ELEVENLABS_XI_API_KEY` setting, `useVits` its negation;
the remaining fields merge character overrides, settings and defaults with
JavaScript `||`. -/
def getVoiceSettings (rt : Runtime) : VoiceSettings :=
  let hasElevenLabs := jsTruthy (rt.getSetting "ELEVENLABS_XI_API_KEY")
  { elevenlabsVoiceId :=
      jsOr ((rt.voice.bind (fun v => v.elevenlabs)).bind (fun e => e.voiceId))
        (rt.getSetting "ELEVENLABS_VOICE_ID")
    elevenlabsModel :=
      jsOrD (jsOr ((rt.voice.bind (fun v => v.elevenlabs)).bind (fun e => e.model))
        (rt.getSetting "ELEVENLABS_MODEL_ID")) "eleven_monolingual_v1"
    elevenlabsStability :=
      jsOrD (jsOr ((rt.voice.bind (fun v => v.elevenlabs)).bind (fun e => e.stability))
        (rt.getSetting "ELEVENLABS_VOICE_STABILITY")) "0.5"
    vitsVoice :=
      jsOrD (jsOr (jsOr (rt.voice.bind (fun v => v.model)) (rt.voice.bind (fun v => v.url)))
        (rt.getSetting "VITS_VOICE")) "en_US-hfc_female-medium"
    useVits := !hasElevenLabs }

/-- Name used by the spec for the remote-vs-local preference of the resolved
voice configuration: `preferRemote` is the negation of `useVits`. -/
def preferRemote (vs : VoiceSettings) : Bool := !vs.useVits

/-- The fields of a `fetch` response the source reads: `ok`, `status`,
the body as text (read on failure) and the body as bytes (buffered on
success). -/
structure HttpResponse where
  ok : Bool
  status : Nat
  bodyText : String
  bodyBytes : List Nat

/-- Outcome of the single `fetch` call: a response, or a thrown transport
error. -/
inductive FetchOutcome where
  | resp : HttpResponse → FetchOutcome
  | threw : String → FetchOutcome

/-- JavaScript `s.startsWith(p)`, on the character sequences of the two
strings. -/
def jsStartsWith (s p : String) : Bool := p.toList.isPrefixOf s.toList

/-- Value of a non-empty all-digit character run as a decimal number. -/
def digitsToNat (cs : List Char) : Nat :=
  cs.foldl (fun acc c => acc * 10 + (c.toNat - 48)) 0

/-- JavaScript `parseInt` restricted to the inputs the source feeds it: the
longest leading run of decimal digits, `none` standing for `NaN` when there
is none (leading whitespace, signs and the hexadecimal prefix never occur in
the claims' inputs and are not modelled). -/
def jsParseInt (cs : List Char) : Option Nat :=
  let ds := cs.takeWhile Char.isDigit
  if ds.isEmpty then none else some (digitsToNat ds)

/-- `textToSpeech` (source lines 72–119).  `cfgError` is the outcome of
`validateNodeConfig` (defined in `environment.ts`, not among the provided
sources): `some e` means it threw `e` before the request was attempted.
Otherwise the single `fetch` is performed; a thrown transport error is
logged and rethrown unchanged by the `catch` (lines 115–118); a non-success
status throws the literal interpolated message of line 100; on success the
buffered body is wrapped: if `ELEVENLABS_OUTPUT_FORMAT` starts with `pcm_`
the sample rate is `parseInt` of the characters after the first four and the
body goes through `prependWavHeader` with the body byte length, that rate,
channel count 1 and bit depth 16, else the body stream is returned as is.
An undefined `ELEVENLABS_OUTPUT_FORMAT` would make line 109 throw a
`TypeError` (`startsWith` of `undefined`); a `pcm_` tag with no digits makes
`parseInt` return `NaN`, whose malformed downstream header no claim touches —
both modelled with placeholder values.  The second component counts the
`fetch` calls performed. -/
def textToSpeech (rt : Runtime) (cfgError : Option String) (net : FetchOutcome) :
    Except String (List (List Nat)) × Nat :=
  match cfgError with
  | some e => (.error e, 0)
  | none =>
    match net with
    | .threw e => (.error e, 1)
    | .resp r =>
      if !r.ok then
        (.error ("Received status " ++ toString r.status ++ " from Eleven Labs API: "
          ++ r.bodyText), 1)
      else
        match rt.getSetting "ELEVENLABS_OUTPUT_FORMAT" with
        | none => (.error "TypeError", 1)
        | some fmt =>
          if jsStartsWith fmt "pcm_" then
            (.ok (prependWavHeader (bufferToStream r.bodyBytes) r.bodyBytes.length
              ((jsParseInt (fmt.toList.drop 4)).getD 0) 1 16), 1)
          else
            (.ok (bufferToStream r.bodyBytes), 1)

/-- Outcome of one `Echogarden.synthesize` invocation: the engine threw, or
returned an `audio` value of some shape. -/
inductive VitsOutcome where
  | engineErr : String → VitsOutcome
  | audio : EchogardenAudio → VitsOutcome

/-- `generateVitsAudio` (source lines 156–166) applied to one engine
outcome: an engine throw propagates, otherwise the audio value goes through
`processVitsAudio`. -/
def generateVitsAudio : VitsOutcome → Except String (List (List Nat))
  | .engineErr e => .error e
  | .audio a => processVitsAudio a

/-- Environment of one `generate` call: the runtime, the `validateNodeConfig`
outcome, the outcome of the (at most one) `fetch`, and the outcome of the
i-th `Echogarden.synthesize` invocation performed during the call. -/
structure World where
  rt : Runtime
  cfgError : Option String
  net : FetchOutcome
  vits : Nat → VitsOutcome

/-- Result of one `generate` call together with how many times `textToSpeech`
and `generateVitsAudio` were entered. -/
structure GenResult where
  result : Except String (List (List Nat))
  remoteCalls : Nat
  vitsCalls : Nat

/-- `SpeechService.generate` (source lines 177–202): the primary adapter is
VITS when `useVits` is set or the API-key setting is falsy (line 188), else
ElevenLabs; any error thrown inside the `try` block — a remote failure or a
local-path failure alike — is caught at line 197 and answered with one
further `generateVitsAudio` call, whose error, if any, propagates to the
caller. -/
def generate (w : World) : GenResult :=
  let vs := getVoiceSettings w.rt
  if vs.useVits || !(jsTruthy (w.rt.getSetting "ELEVENLABS_XI_API_KEY")) then
    match generateVitsAudio (w.vits 0) with
    | .ok s => ⟨.ok s, 0, 1⟩
    | .error _ =>
      match generateVitsAudio (w.vits 1) with
      | .ok s => ⟨.ok s, 0, 2⟩
      | .error e => ⟨.error e, 0, 2⟩
  else
    match textToSpeech w.rt w.cfgError w.net with
    | (.ok s, _) => ⟨.ok s, 1, 0⟩
    | (.error _, _) =>
      match generateVitsAudio (w.vits 0) with
      | .ok s => ⟨.ok s, 1, 1⟩
      | .error e => ⟨.error e, 1, 1⟩

/-- Concrete runtime for the remote-path witnesses: API key and `pcm_24000`
output format configured, no character overrides. -/
def rtPcm : Runtime :=
  { getSetting := fun k =>
      if k = "ELEVENLABS_XI_API_KEY" then some "test-key"
      else if k = "ELEVENLABS_OUTPUT_FORMAT" then some "pcm_24000"
      else none
    voice := none }

/-- Concrete runtime with no settings at all (remote credentials absent). -/
def rtNoKey : Runtime := ⟨fun _ => none, none⟩

/-- Concrete successful PCM response. -/
def respPcm : HttpResponse := ⟨true, 200, "", [10, 20]⟩

/-- Concrete non-success response (HTTP 401). -/
def resp401 : HttpResponse := ⟨false, 401, "unauthorized", []⟩

/-- Engine outcomes that always return an already-encoded 3-byte buffer. -/
def vitsOk : Nat → VitsOutcome := fun _ => .audio (.buffer [1, 2, 3])

/-- World for the remote-failure witness: key configured, fetch answers 401,
the local engine succeeds. -/
def wRemoteFail : World := ⟨rtPcm, none, .resp resp401, vitsOk⟩

/-- World where remote credentials are absent and every local engine
invocation fails, with distinguishable errors per invocation. -/
def wLocalFail : World :=
  ⟨rtNoKey, none, .threw "unused",
    fun i => .engineErr (if i = 0 then "vits-error-0" else "vits-error-1")⟩

theorem composeLoop_pushed (hdr : List Nat) (cs : List (List Nat)) :
    composeLoop hdr true cs = cs := by
  induction cs with
  | nil => rfl
  | cons c rest ih => simp [composeLoop, ih]

theorem prependWavHeader_cons (c : List Nat) (cs : List (List Nat)) (a r ch b : Nat) :
    prependWavHeader (c :: cs) a r ch b = getWavHeader a r ch b :: c :: cs := by
  simp [prependWavHeader, composeLoop, composeLoop_pushed]

theorem prependWavHeader_flatten_cons (c : List Nat) (cs : List (List Nat)) (a r ch b : Nat) :
    (prependWavHeader (c :: cs) a r ch b).flatten
      = getWavHeader a r ch b ++ (c :: cs).flatten := by
  rw [prependWavHeader_cons]
  simp

theorem prependWavHeader_nil (a r ch b : Nat) : prependWavHeader [] a r ch b = [] := rfl

theorem getWavHeader_length (a r ch b : Nat) : (getWavHeader a r ch b).length = 44 := by
  simp [getWavHeader, u16le, u32le]

theorem getWavHeader_ne_nil (a r ch b : Nat) : getWavHeader a r ch b ≠ [] := by
  intro h
  have := getWavHeader_length a r ch b
  rw [h] at this
  exact absurd this (by decide)

theorem pcm_bytes_length (pcm : List ℤ) :
    ((pcm.map int16ToLEBytes).flatten).length = 2 * pcm.length := by
  induction pcm with
  | nil => rfl
  | cons x xs ih =>
    simp only [List.map_cons, List.flatten_cons, List.length_append, ih,
      int16ToLEBytes, List.length_cons, List.length_nil]
    omega

theorem toInt16_mem_range (n : ℤ) : -32768 ≤ toInt16 n ∧ toInt16 n ≤ 32767 := by
  unfold toInt16
  have h1 : 0 ≤ (n + 32768) % 65536 := Int.emod_nonneg _ (by norm_num)
  have h2 : (n + 32768) % 65536 < 65536 := Int.emod_lt_of_pos _ (by norm_num)
  omega

theorem getVoiceSettings_useVits (rt : Runtime) :
    (getVoiceSettings rt).useVits = !jsTruthy (rt.getSetting "ELEVENLABS_XI_API_KEY") := rfl

theorem bufferToStream_of_ne_nil (b : List Nat) (h : b ≠ []) : bufferToStream b = [b] := by
  unfold bufferToStream
  cases b with
  | nil => exact absurd rfl h
  | cons x xs => rfl

theorem generate_remoteCalls_eq (w : World) :
    (generate w).remoteCalls
      = if jsTruthy (w.rt.getSetting "ELEVENLABS_XI_API_KEY") = true then 1 else 0 := by
  cases hkey : jsTruthy (w.rt.getSetting "ELEVENLABS_XI_API_KEY") with
  | false =>
    have hcond : ((getVoiceSettings w.rt).useVits
        || !jsTruthy (w.rt.getSetting "ELEVENLABS_XI_API_KEY")) = true := by
      rw [getVoiceSettings_useVits, hkey]
      rfl
    rcases h0 : generateVitsAudio (w.vits 0) with e0 | s0
    · rcases h1 : generateVitsAudio (w.vits 1) with e1 | s1
      · simp [generate, hcond, h0, h1]
      · simp [generate, hcond, h0, h1]
    · simp [generate, hcond, h0]
  | true =>
    have hcond : ((getVoiceSettings w.rt).useVits
        || !jsTruthy (w.rt.getSetting "ELEVENLABS_XI_API_KEY")) = false := by
      rw [getVoiceSettings_useVits, hkey]
      rfl
    rcases htts : textToSpeech w.rt w.cfgError w.net with ⟨res, n⟩
    rcases res with e0 | s0
    · rcases h0 : generateVitsAudio (w.vits 0) with e1 | s1
      · simp [generate, hcond, htts, h0]
      · simp [generate, hcond, htts, h0]
    · simp [generate, hcond, htts]

/-- C10: a byte source that terminates without ever producing a data chunk
composes to the empty output stream: zero chunks, zero bytes, in particular
no header. -/
theorem prepend_empty_source_empty_output (a r ch b : Nat) :
    prependWavHeader [] a r ch b = []
      ∧ (prependWavHeader [] a r ch b).flatten = [] :=
  ⟨prependWavHeader_nil a r ch b, by simp [prependWavHeader_nil]⟩

/-- C3 (amended): for every source that produces at least one chunk, the
composed output is exactly the 44-byte header followed by every byte the
source produces, in source order, with no chunk duplicated or dropped and
nothing after the source's bytes; a source that ends without producing any
data chunk instead composes to the empty output (no header). -/
theorem prepend_header_then_payload_in_order (c : List Nat) (cs : List (List Nat))
    (a r ch b : Nat) :
    (prependWavHeader (c :: cs) a r ch b).flatten = getWavHeader a r ch b ++ (c :: cs).flatten
      ∧ (getWavHeader a r ch b).length = 44
      ∧ prependWavHeader [] a r ch b = [] :=
  ⟨prependWavHeader_flatten_cons c cs a r ch b, getWavHeader_length a r ch b,
    prependWavHeader_nil a r ch b⟩

/-- C3 counterexample: the claim extends the header-then-payload shape to a
source that ends without any data chunk, but such a source composes to zero
bytes while the claimed output, the 44-byte header followed by nothing, has
44. -/
theorem prepend_empty_source_no_header :
    (prependWavHeader [] 100 8000 1 16).flatten.length = 0
      ∧ (getWavHeader 100 8000 1 16 ++ ([] : List (List Nat)).flatten).length = 44
      ∧ (0 : Nat) ≠ 44 :=
  ⟨rfl, by decide, by decide⟩

/-- C4: for every source producing at least one chunk the composer emits the
header exactly once, as the very first chunk, before any payload byte — also
when zero-length chunks precede real data — and the flattened output depends
only on the concatenation of the source's bytes, not on how they are split
into chunks. -/
theorem prepend_header_once_chunking_irrelevant
    (c : List Nat) (cs cs1 cs2 : List (List Nat)) (a r ch b : Nat)
    (h1 : cs1 ≠ []) (h2 : cs2 ≠ []) (hjoin : cs1.flatten = cs2.flatten) :
    prependWavHeader (c :: cs) a r ch b = getWavHeader a r ch b :: c :: cs
      ∧ (prependWavHeader cs1 a r ch b).flatten = (prependWavHeader cs2 a r ch b).flatten := by
  refine ⟨prependWavHeader_cons c cs a r ch b, ?_⟩
  obtain ⟨d1, ds1, rfl⟩ := List.exists_cons_of_ne_nil h1
  obtain ⟨d2, ds2, rfl⟩ := List.exists_cons_of_ne_nil h2
  rw [prependWavHeader_flatten_cons, prependWavHeader_flatten_cons, hjoin]

/-- C4 witness: a two-chunk source and a one-chunk source with the same
bytes; the composed outputs agree byte for byte, and a singleton source gets
the header as first chunk. -/
theorem prepend_header_once_chunking_irrelevant_witness :
    ([[1], [2, 3]] : List (List Nat)) ≠ []
      ∧ ([[1, 2, 3]] : List (List Nat)) ≠ []
      ∧ ([[1], [2, 3]] : List (List Nat)).flatten = ([[1, 2, 3]] : List (List Nat)).flatten
      ∧ prependWavHeader [[7]] 3 8000 1 16 = getWavHeader 3 8000 1 16 :: [7] :: []
      ∧ (prependWavHeader [[1], [2, 3]] 3 8000 1 16).flatten
          = (prependWavHeader [[1, 2, 3]] 3 8000 1 16).flatten := by
  have h := prepend_header_once_chunking_irrelevant [7] [] [[1], [2, 3]] [[1, 2, 3]]
    3 8000 1 16 (by decide) (by decide) (by decide)
  exact ⟨by decide, by decide, by decide, h.1, h.2⟩

/-- C2 counterexample: on the float32 inputs 0.5, -1.0 and 1.2 (exact
rational values 1/2, -1 and 5033165/4194304) the conversion loop produces
the PCM values 16384, -32767 and -26216 — the out-of-range 1.2 sample wraps
around instead of clamping — so the claimed values 16383, -32768, 32767 are
not produced. -/
theorem sample_conversion_claim_counterexample :
    ([1 / 2, -1, 5033165 / 4194304] : List ℚ).map vitsConvertSample = [16384, -32767, -26216]
      ∧ ([16384, -32767, -26216] : List ℤ) ≠ [16383, -32768, 32767] := by
  constructor
  · simp only [List.map_cons, List.map_nil]
    norm_num [vitsConvertSample, jsRound, toInt16]
  · decide

/-- C2 (amended): each float sample s maps to Math.round(s * 32767) wrapped
by the Int16Array store into the signed 16-bit range (two's complement, not
clamped); every output lies in [-32768, 32767]; 1.0 maps to 32767 and -1.0
to -32767; and the input [0.5, -1.0, 1.2] yields the PCM values
16384, -32767, -26216. -/
theorem sample_conversion_wraps_values (s : ℚ) :
    (-32768 ≤ vitsConvertSample s ∧ vitsConvertSample s ≤ 32767)
      ∧ vitsConvertSample 1 = 32767
      ∧ vitsConvertSample (-1) = -32767
      ∧ ([1 / 2, -1, 5033165 / 4194304] : List ℚ).map vitsConvertSample
          = [16384, -32767, -26216] := by
  refine ⟨toInt16_mem_range _, ?_, ?_, ?_⟩
  · norm_num [vitsConvertSample, jsRound, toInt16]
  · norm_num [vitsConvertSample, jsRound, toInt16]
  · simp only [List.map_cons, List.map_nil]
    norm_num [vitsConvertSample, jsRound, toInt16]

/-- C8: a raw float-channel engine result with first channel c0 of N samples
converts to a PCM payload of exactly 2 * N bytes, framed by a header built
with payload length N * 2, the engine's sample rate, channel count 1 and bit
depth 16; only the first channel matters (further channels do not change the
result); and a result of any unrecognized shape fails with the
unsupported-format error. -/
theorem vits_raw_audio_processing (c0 : List ℚ) (rest rest2 : List (List ℚ)) (sr : Nat) :
    (∃ pcmBytes,
        processVitsAudio (.rawAudio (c0 :: rest) sr)
            = .ok [getWavHeader (c0.length * 2) sr 1 16 ++ pcmBytes]
          ∧ pcmBytes.length = 2 * c0.length)
      ∧ processVitsAudio (.rawAudio (c0 :: rest) sr)
          = processVitsAudio (.rawAudio (c0 :: rest2) sr)
      ∧ processVitsAudio .other = .error "Unsupported audio format" := by
  refine ⟨⟨((c0.map vitsConvertSample).map int16ToLEBytes).flatten, ?_, ?_⟩, rfl, rfl⟩
  · have hne : getWavHeader ((c0.map vitsConvertSample).length * 2) sr 1 16
        ++ ((c0.map vitsConvertSample).map int16ToLEBytes).flatten ≠ [] := by
      intro h
      exact getWavHeader_ne_nil _ _ _ _ (List.append_eq_nil.mp h).1
    simp only [processVitsAudio]
    rw [bufferToStream_of_ne_nil _ hne, List.length_map]
  · rw [pcm_bytes_length, List.length_map]

/-- C5: on a successful remote response, an output-format tag starting with
`pcm_` makes the adapter parse the sample rate from the characters after the
prefix and wrap the buffered body through the Stream Composer with that
rate, the body's byte length, channel count 1 and bit depth 16 — the tag
pcm_24000 parsing to 24000 — while a tag without the prefix returns the body
stream unmodified. -/
theorem remote_pcm_format_wraps_body (rt : Runtime) (r : HttpResponse) (fmt : String)
    (rate : Nat) (hok : r.ok = true)
    (hfmt : rt.getSetting "ELEVENLABS_OUTPUT_FORMAT" = some fmt) :
    (jsStartsWith fmt "pcm_" = true → jsParseInt (fmt.toList.drop 4) = some rate →
        textToSpeech rt none (.resp r)
          = (.ok (prependWavHeader (bufferToStream r.bodyBytes) r.bodyBytes.length
              rate 1 16), 1))
      ∧ (jsStartsWith fmt "pcm_" = false →
          textToSpeech rt none (.resp r) = (.ok (bufferToStream r.bodyBytes), 1))
      ∧ jsParseInt ("pcm_24000".toList.drop 4) = some 24000 := by
  refine ⟨?_, ?_, by decide⟩
  · intro hs hp
    have hp2 : jsParseInt (List.drop 4 fmt.data) = some rate := hp
    simp [textToSpeech, hok, hfmt, hs, hp2]
  · intro hs
    simp [textToSpeech, hok, hfmt, hs]

/-- C5 witness: the concrete runtime configured with pcm_24000 and a
successful 2-byte response produce exactly the composed wrap at rate 24000,
length 2, channel count 1, bit depth 16. -/
theorem remote_pcm_format_wraps_body_witness :
    respPcm.ok = true
      ∧ rtPcm.getSetting "ELEVENLABS_OUTPUT_FORMAT" = some "pcm_24000"
      ∧ jsStartsWith "pcm_24000" "pcm_" = true
      ∧ jsParseInt ("pcm_24000".toList.drop 4) = some 24000
      ∧ textToSpeech rtPcm none (.resp respPcm)
          = (.ok (prependWavHeader (bufferToStream respPcm.bodyBytes)
              respPcm.bodyBytes.length 24000 1 16), 1) :=
  ⟨rfl, by decide, by decide, by decide,
    (remote_pcm_format_wraps_body rtPcm respPcm "pcm_24000" 24000 rfl (by decide)).1
      (by decide) (by decide)⟩

/-- C7: with configuration validated and the output format defined, the
remote adapter fails exactly when the transport throws or the response has a
non-success status; a non-success status raises the message carrying the
numeric status code and the response body text; and exactly one fetch is
performed, never a retry. -/
theorem remote_fails_iff_status_or_throw (rt : Runtime) (net : FetchOutcome) (fmt : String)
    (hfmt : rt.getSetting "ELEVENLABS_OUTPUT_FORMAT" = some fmt) :
    ((∃ e, (textToSpeech rt none net).1 = .error e)
        ↔ (∃ e, net = .threw e) ∨ ∃ r, net = .resp r ∧ r.ok = false)
      ∧ (∀ r, net = .resp r → r.ok = false →
          (textToSpeech rt none net).1
            = .error ("Received status " ++ toString r.status
                ++ " from Eleven Labs API: " ++ r.bodyText))
      ∧ (textToSpeech rt none net).2 = 1 := by
  cases net with
  | threw e =>
    refine ⟨⟨fun _ => .inl ⟨e, rfl⟩, fun _ => ⟨e, rfl⟩⟩, ?_, rfl⟩
    intro r hr
    exact absurd hr (by simp)
  | resp r =>
    cases hok : r.ok with
    | false =>
      refine ⟨⟨fun _ => .inr ⟨r, rfl, hok⟩, fun _ => ?_⟩, ?_, ?_⟩
      · exact ⟨"Received status " ++ toString r.status ++ " from Eleven Labs API: "
          ++ r.bodyText, by simp [textToSpeech, hok]⟩
      · intro r2 hr2 _
        cases hr2
        simp [textToSpeech, hok]
      · simp [textToSpeech, hok]
    | true =>
      refine ⟨⟨?_, ?_⟩, ?_, ?_⟩
      · rintro ⟨e, he⟩
        by_cases hs : jsStartsWith fmt "pcm_" = true
        · simp [textToSpeech, hok, hfmt, hs] at he
        · simp [textToSpeech, hok, hfmt, hs] at he
      · rintro (⟨e, he⟩ | ⟨r2, hr2, hok2⟩)
        · exact absurd he (by simp)
        · cases hr2
          rw [hok] at hok2
          exact absurd hok2 (by decide)
      · intro r2 hr2 hok2
        cases hr2
        rw [hok] at hok2
        exact absurd hok2 (by decide)
      · by_cases hs : jsStartsWith fmt "pcm_" = true
        · simp [textToSpeech, hok, hfmt, hs]
        · simp [textToSpeech, hok, hfmt, hs]

/-- C7 witness: the 401 response makes the adapter fail with the message
carrying the status code and body text, after exactly one fetch. -/
theorem remote_fails_iff_status_or_throw_witness :
    rtPcm.getSetting "ELEVENLABS_OUTPUT_FORMAT" = some "pcm_24000"
      ∧ resp401.ok = false
      ∧ (textToSpeech rtPcm none (.resp resp401)).1
          = .error ("Received status " ++ toString resp401.status
              ++ " from Eleven Labs API: " ++ resp401.bodyText)
      ∧ (textToSpeech rtPcm none (.resp resp401)).2 = 1 :=
  ⟨by decide, rfl,
    (remote_fails_iff_status_or_throw rtPcm (.resp resp401) "pcm_24000" (by decide)).2.1
      resp401 rfl rfl,
    (remote_fails_iff_status_or_throw rtPcm (.resp resp401) "pcm_24000" (by decide)).2.2⟩

/-- C1: when the remote path is taken (truthy API-key setting) and the
remote adapter fails for any reason, generate returns the local adapter's
stream whenever the local adapter succeeds, and the local adapter's error
when the local adapter fails too — the remote error is never the surfaced
one. -/
theorem generate_remote_failure_falls_back (w : World) (e : String)
    (hkey : jsTruthy (w.rt.getSetting "ELEVENLABS_XI_API_KEY") = true)
    (hremote : (textToSpeech w.rt w.cfgError w.net).1 = .error e) :
    (∀ s, generateVitsAudio (w.vits 0) = .ok s → (generate w).result = .ok s)
      ∧ ∀ e2, generateVitsAudio (w.vits 0) = .error e2 →
          (generate w).result = .error e2 := by
  have hcond : ((getVoiceSettings w.rt).useVits
      || !jsTruthy (w.rt.getSetting "ELEVENLABS_XI_API_KEY")) = false := by
    rw [getVoiceSettings_useVits, hkey]
    rfl
  rcases htts : textToSpeech w.rt w.cfgError w.net with ⟨res, n⟩
  rw [htts] at hremote
  simp only at hremote
  subst hremote
  constructor
  · intro s hs
    simp [generate, hcond, htts, hs]
  · intro e2 hs
    simp [generate, hcond, htts, hs]

/-- C1 witness: with the key configured, a 401 remote response and a local
engine returning an encoded 3-byte buffer, generate returns the local
adapter's single-chunk stream. -/
theorem generate_remote_failure_falls_back_witness :
    jsTruthy (wRemoteFail.rt.getSetting "ELEVENLABS_XI_API_KEY") = true
      ∧ (textToSpeech wRemoteFail.rt wRemoteFail.cfgError wRemoteFail.net).1
          = .error "Received status 401 from Eleven Labs API: unauthorized"
      ∧ generateVitsAudio (wRemoteFail.vits 0) = .ok [[1, 2, 3]]
      ∧ (generate wRemoteFail).result = .ok [[1, 2, 3]] :=
  ⟨by decide, rfl, rfl,
    (generate_remote_failure_falls_back wRemoteFail
        "Received status 401 from Eleven Labs API: unauthorized"
        (by decide) rfl).1 [[1, 2, 3]] rfl⟩

/-- C6 (amended): with a falsy API-key setting the selector invokes the
local adapter directly and the remote adapter is never invoked; but a local
adapter failure is caught by the generic fallback and answered with exactly
one further local attempt, whose stream or error is the final result. -/
theorem generate_local_primary_retries_local (w : World)
    (hkey : jsTruthy (w.rt.getSetting "ELEVENLABS_XI_API_KEY") = false) :
    (generate w).remoteCalls = 0
      ∧ (∀ s, generateVitsAudio (w.vits 0) = .ok s → generate w = ⟨.ok s, 0, 1⟩)
      ∧ ∀ e, generateVitsAudio (w.vits 0) = .error e →
          (generate w).vitsCalls = 2
            ∧ (generate w).result = generateVitsAudio (w.vits 1) := by
  have hcond : ((getVoiceSettings w.rt).useVits
      || !jsTruthy (w.rt.getSetting "ELEVENLABS_XI_API_KEY")) = true := by
    rw [getVoiceSettings_useVits, hkey]
    rfl
  refine ⟨?_, ?_, ?_⟩
  · rw [generate_remoteCalls_eq, hkey]
    rfl
  · intro s hs
    simp [generate, hcond, hs]
  · intro e hs
    rcases h1 : generateVitsAudio (w.vits 1) with e1 | s1
    · simp [generate, hcond, hs, h1]
    · simp [generate, hcond, hs, h1]

/-- C6 witness: with no settings configured and a deterministically failing
local engine, the remote adapter is never invoked, the local adapter is
entered twice, and the final result is the second attempt's outcome. -/
theorem generate_local_primary_retries_local_witness :
    jsTruthy (wLocalFail.rt.getSetting "ELEVENLABS_XI_API_KEY") = false
      ∧ (generate wLocalFail).remoteCalls = 0
      ∧ generateVitsAudio (wLocalFail.vits 0) = .error "vits-error-0"
      ∧ ((generate wLocalFail).vitsCalls = 2
          ∧ (generate wLocalFail).result = generateVitsAudio (wLocalFail.vits 1)) :=
  ⟨rfl, (generate_local_primary_retries_local wLocalFail rfl).1, rfl,
    (generate_local_primary_retries_local wLocalFail rfl).2.2 "vits-error-0" rfl⟩

/-- C6 counterexample: in the world with absent credentials and a failing
local engine the claim requires a single local attempt whose error is final,
but generate enters the local adapter twice and surfaces the second
invocation's error, not the first. -/
theorem generate_local_failure_retried_counterexample :
    (generate wLocalFail).vitsCalls = 2
      ∧ (2 : Nat) ≠ 1
      ∧ (generate wLocalFail).result = .error "vits-error-1"
      ∧ (generate wLocalFail).result ≠ .error "vits-error-0" := by
  refine ⟨rfl, by decide, rfl, fun h => ?_⟩
  rw [show (generate wLocalFail).result = .error "vits-error-1" from rfl] at h
  simp at h

/-- C9: preferRemote of the settings resolved on a call is true exactly when
the remote API-key setting is present (truthy) on that call's runtime, and
generate routes to the remote adapter under exactly the same per-call
condition — the decision is recomputed from the runtime given to each call,
with no state carried between calls. -/
theorem prefer_remote_iff_key_present (rt : Runtime) (w : World) :
    (preferRemote (getVoiceSettings rt) = true
        ↔ jsTruthy (rt.getSetting "ELEVENLABS_XI_API_KEY") = true)
      ∧ (generate w).remoteCalls
          = if jsTruthy (w.rt.getSetting "ELEVENLABS_XI_API_KEY") = true then 1 else 0 := by
  constructor
  · rw [show preferRemote (getVoiceSettings rt)
        = !(getVoiceSettings rt).useVits from rfl, getVoiceSettings_useVits]
    cases jsTruthy (rt.getSetting "ELEVENLABS_XI_API_KEY") with
    | false => simp
    | true => simp
  · exact generate_remoteCalls_eq w

end Speech
